import Mathlib

/-!
Verification of the incident-parser frontend and its validation layer.

The embedding follows the TypeScript sources:
* `frontend/types/incident.ts` — the `Severity`, `ParsedIncident` and
  `ParseIncidentResponse` types;
* the API client (`parseIncident`, `checkHealth`) — modelled over an explicit
  fetch-outcome type and an untyped JSON value type, since the code forwards
  raw JSON bodies;
* the `IncidentParser` React component — `handleParse`, `getSeverityColor`
  and the result-section rendering;
* the backend validator/normalizer is not present in the sources; where a
  claim depends on it, it is modelled from the specification (each such
  definition is marked `Modelled from the spec:`).

JSON numbers are modelled as `Int`: every number this system manipulates
(`Impact_Count`, HTTP status codes, extracted counts) is an integer, and no
claim concerns fractional values.
-/

namespace IncidentSpec

/-- An untyped JSON value, as decoded by `response.json()` on the wire. -/
inductive Json where
  | null
  | bool (b : Bool)
  | num (n : Int)
  | str (s : String)
  | arr (elems : List Json)
  | obj (fields : List (String × Json))

/-- Key lookup `j[k]` on a decoded JSON value: `none` both when the key is
absent and when the value is not an object. This is plain JSON-object lookup;
where the code performs a JavaScript property *read* on a value that may be
`null` — reading `errorData.detail` throws a `TypeError` on `null`, while a
boxed boolean, number, string or array yields `undefined` — the `null` case
is handled at the use site (`httpFailure`), not here. -/
def getField (j : Json) (key : String) : Option Json :=
  match j with
  | .obj fields => lookupKey fields key
  | _ => none
where
  lookupKey : List (String × Json) → String → Option Json
    | [], _ => none
    | (k, v) :: rest, key => if k = key then some v else lookupKey rest key

/-- The keys of a JSON object, in order; `[]` for non-objects. -/
def jsonKeys (j : Json) : List String :=
  match j with
  | .obj fields => fields.map Prod.fst
  | _ => []

/-- JavaScript truthiness of a decoded JSON value: `null`, `false`, `0` and
`""` are falsy; every other value (including `[]` and `\x7b\x7d`) is truthy. -/
def jsTruthy : Json → Bool
  | .null => false
  | .bool b => b
  | .num n => n != 0
  | .str s => s != ""
  | .arr _ => true
  | .obj _ => true

/-- The severity enumeration, from
`export type Severity = "High" | "Med" | "Low"` in `frontend/types/incident.ts`. -/
inductive Severity where
  | High
  | Med
  | Low
deriving DecidableEq

/-- The string a `Severity` value prints as on the wire. -/
def Severity.toWire : Severity → String
  | .High => "High"
  | .Med => "Med"
  | .Low => "Low"

/-- The `ParsedIncident` interface from `frontend/types/incident.ts`:
field names and their order are exactly as declared there. -/
structure ParsedIncident where
  Severity : Severity
  Component : String
  Timestamp : String
  Suspected_Cause : String
  Impact_Count : Int

/-- `JSON.stringify` of a `ParsedIncident` value (as the component's
"Copy JSON" / JSON-output panel produces): a JSON object whose keys are the
interface's property names in declaration order. -/
def ParsedIncident.stringifyObj (r : ParsedIncident) : Json :=
  .obj [("Severity", .str r.Severity.toWire),
        ("Component", .str r.Component),
        ("Timestamp", .str r.Timestamp),
        ("Suspected_Cause", .str r.Suspected_Cause),
        ("Impact_Count", .num r.Impact_Count)]

/-- The `ParseIncidentResponse` interface from `frontend/types/incident.ts`:
`success: boolean`, optional `data`, optional `error`. -/
structure ParseIncidentResponse where
  success : Bool
  data : Option ParsedIncident
  error : Option String

/-! ## The `IncidentParser` component -/

/-- The ECMAScript whitespace set stripped by `String.prototype.trim`
(WhiteSpace and LineTerminator code points; the Zs space separators beyond
NBSP are omitted as no input in this development contains them). -/
def isJsWhitespace (c : Char) : Bool :=
  c = ' ' || c = '\t' || c = '\n' || c = '\r' ||
  c.val = 0x0b || c.val = 0x0c || c.val = 0xa0 ||
  c.val = 0xfeff || c.val = 0x2028 || c.val = 0x2029

/-- `String.prototype.trim` on the underlying character list: drop leading and
trailing whitespace. -/
def jsTrimList (l : List Char) : List Char :=
  ((l.dropWhile isJsWhitespace).reverse.dropWhile isJsWhitespace).reverse

/-- `inputText.trim()` as the component calls it. -/
def jsTrim (s : String) : String :=
  ⟨jsTrimList s.data⟩

/-- The client-side rejection message of `handleParse`. -/
def tooShortMessage : String :=
  "Please enter at least 10 characters of incident text."

/-- What a call to `handleParse` leaves behind: the response stored with
`setResult`, and whether `parseIncident` (hence a network request) was made. -/
structure HandleParseOutcome where
  result : ParseIncidentResponse
  apiCalled : Bool

/-- `handleParse` from the `IncidentParser` component. The guard is
`!inputText.trim() || inputText.trim().length < 10` — an empty trim is falsy —
and on the call path the untrimmed `inputText` is sent. `api` stands for
`parseIncident`'s response; `parseIncident` resolves on every path (it catches
internally), so the component's own `catch` arm is unreachable and the call
reduces to storing the resolved response. -/
def handleParse (api : String → ParseIncidentResponse) (inputText : String) :
    HandleParseOutcome :=
  if jsTrim inputText = "" || (jsTrim inputText).length < 10 then
    { result := { success := false, data := none, error := some tooShortMessage },
      apiCalled := false }
  else
    { result := api inputText, apiCalled := true }

/-- `getSeverityColor` from the `IncidentParser` component: a `switch` on the
severity string with a gray default arm. -/
def getSeverityColor (severity : String) : String :=
  if severity = "High" then "bg-red-500/20 text-red-400 border-red-500/50"
  else if severity = "Med" then "bg-yellow-500/20 text-yellow-400 border-yellow-500/50"
  else if severity = "Low" then "bg-green-500/20 text-green-400 border-green-500/50"
  else "bg-gray-500/20 text-gray-400 border-gray-500/50"

/-- The fallback error text of the component's error panel
(`result.error || "An error occurred while parsing the incident."`). -/
def defaultErrorMessage : String :=
  "An error occurred while parsing the incident."

/-- JavaScript `opt || fallback` on an optional string: an absent or empty
string is falsy. -/
def jsStringOr (opt : Option String) (fallback : String) : String :=
  match opt with
  | some s => if s = "" then fallback else s
  | none => fallback

/-- What the component's result section renders. -/
inductive RenderedView where
  | noResult
  | fullResult (d : ParsedIncident)
  | errorView (msg : String)

/-- The result section of the `IncidentParser` JSX: nothing when `result` is
`null`; the fully-populated view (all five fields of `result.data` plus the
JSON dump) when `result.success && result.data` is truthy; otherwise the error
panel with `result.error || defaultErrorMessage`. -/
def renderResult : Option ParseIncidentResponse → RenderedView
  | none => .noResult
  | some r =>
    match r.success, r.data with
    | true, some d => .fullResult d
    | _, _ => .errorView (jsStringOr r.error defaultErrorMessage)

/-! ## The API client (`parseIncident`) -/

/-- One outcome of the `fetch` + `response.json()` pair inside `parseIncident`:
either the promise chain threw (`thrown`, carrying the `Error`'s message when
the thrown value is an `Error` instance, `none` otherwise), or a response
arrived with its `ok` flag, status code, and body — `none` when the body does
not decode as JSON (so `response.json()` rejects), `some j` when it decodes
to `j`. -/
inductive FetchResult where
  | thrown (message : Option String)
  | response (ok : Bool) (status : Nat) (body : Option Json)

/-- The fallback message of `parseIncident`'s `catch` arm for a thrown value
that is not an `Error` instance. -/
def connectionErrorMessage : String :=
  "Failed to connect to API. Make sure the backend is running on port 8000."

/-- The message of the `SyntaxError` that `response.json()` raises on a 2xx
body that is not valid JSON; the exact text is the JavaScript runtime's, not
the repository's, so it is fixed here to the common V8 wording. That error is
an `Error` instance, so `parseIncident`'s `catch` arm forwards this message. -/
def jsonDecodeErrorMessage : String :=
  "Unexpected end of JSON input"

/-- The fallback error text for a non-2xx response,
`` `HTTP error! status: ${response.status}` ``. -/
def httpErrorMessage (status : Nat) : String :=
  "HTTP error! status: " ++ toString status

/-- The failure object `\x7b success: false, error: e \x7d` that `parseIncident`
constructs, as the JSON value it serializes to. -/
def mkFailure (e : Json) : Json :=
  .obj [("success", .bool false), ("error", e)]

/-- The message of the `TypeError` raised by reading `errorData.detail` when
the non-2xx body decodes to literal `null` (`.catch(() => (\x7b\x7d))` does not
fire — `null` is valid JSON). The exact text is the JavaScript runtime's, not
the repository's, so it is fixed here to the common V8 wording; the
`TypeError` is an `Error` instance, so the outer `catch` forwards it. -/
def nullDetailErrorMessage : String :=
  "Cannot read properties of null (reading 'detail')"

/-- The non-2xx arm of `parseIncident`: `errorData` is the decoded body, or
`\x7b\x7d` when decoding fails (`.catch(() => (\x7b\x7d))`), and the error is
`errorData.detail || httpErrorMessage status` — JavaScript `||`, so a falsy
`detail` (absent, `null`, `false`, `0` or `""`) selects the fallback and a
truthy `detail` is forwarded as-is, whatever its type. One exception: when
`errorData` is literal `null`, the property read itself throws a `TypeError`
inside the `try`, and the outer `catch` arm returns that error's message
instead of the fallback. -/
def httpFailure (status : Nat) (body : Option Json) : Json :=
  match body.getD (.obj []) with
  | .null => mkFailure (.str nullDetailErrorMessage)
  | errorData =>
    match getField errorData "detail" with
    | some d => if jsTruthy d then mkFailure d else mkFailure (.str (httpErrorMessage status))
    | none => mkFailure (.str (httpErrorMessage status))

/-- `parseIncident` from the API client, as a function from the fetch outcome
to the JSON value it resolves with. Tracing the source: a thrown `Error`'s
message (or the connection fallback for a non-`Error` value) becomes
`mkFailure`; a non-2xx response goes through `httpFailure`; on a 2xx response
the decoded body is returned unvalidated (the `ParseIncidentResponse`
annotation is not a runtime check), and an undecodable 2xx body raises a
`SyntaxError` — an `Error` instance — that the `catch` arm turns into
`mkFailure` of its message. -/
def parseIncident : FetchResult → Json
  | .thrown (some m) => mkFailure (.str m)
  | .thrown none => mkFailure (.str connectionErrorMessage)
  | .response true _ (some j) => j
  | .response true _ none => mkFailure (.str jsonDecodeErrorMessage)
  | .response false status body => httpFailure status body

/-- Whether a JSON value is a complete wire `ParsedIncident` record: all five
fields present, `Severity` one of the three enumerated strings, string-typed
text fields, numeric `Impact_Count`. -/
def isIncidentRecordJson (j : Json) : Bool :=
  (match getField j "Severity" with
   | some (.str s) => s = "High" || s = "Med" || s = "Low"
   | _ => false) &&
  (match getField j "Component" with
   | some (.str _) => true
   | _ => false) &&
  (match getField j "Timestamp" with
   | some (.str _) => true
   | _ => false) &&
  (match getField j "Suspected_Cause" with
   | some (.str _) => true
   | _ => false) &&
  (match getField j "Impact_Count" with
   | some (.num _) => true
   | _ => false)

/-- Whether a JSON value has the `ParseIncidentResponse` shape: `success`
present and boolean; `data`, when present, only alongside `success: true` and
then a complete record; `error` a string whenever `success` is `false`. -/
def isParseIncidentResponseJson (j : Json) : Bool :=
  (match getField j "success" with
   | some (.bool b) =>
     (match getField j "data" with
      | some d => b && isIncidentRecordJson d
      | none => true) &&
     (if b then true
      else match getField j "error" with
        | some (.str _) => true
        | _ => false)
   | _ => false)

/-- The hypothesis under which `parseIncident`'s 2xx pass-through is shaped:
every decoded 2xx body is a well-formed `ParseIncidentResponse`. The backend
is specified to guarantee this; `parseIncident` itself does not check it. -/
def okBodyWellFormed : FetchResult → Prop
  | .response true _ (some j) => isParseIncidentResponseJson j = true
  | _ => True

/-- The hypothesis under which a forwarded non-2xx `detail` is a string
message: whenever the error body's `detail` is truthy, it is a string. -/
def truthyDetailIsString : FetchResult → Prop
  | .response false _ (some j) =>
    ∀ d, getField j "detail" = some d → jsTruthy d = true → ∃ s, d = .str s
  | _ => True

/-- The failure paths of `parseIncident`: a thrown error, a non-2xx response,
or a 2xx response whose body is not JSON. A decoded 2xx body is the success
path (even if the backend put `success: false` inside it — that value is the
backend's, forwarded, not a failure `parseIncident` produces). -/
def isFailurePath : FetchResult → Bool
  | .thrown _ => true
  | .response false _ _ => true
  | .response true _ none => true
  | .response true _ (some _) => false

/-- The hypothesis under which a thrown `Error`'s forwarded message is
non-empty: JavaScript runtimes throw network errors with non-empty messages,
but `parseIncident` forwards whatever message the `Error` carries. -/
def thrownMessageNonEmpty : FetchResult → Prop
  | .thrown (some m) => m ≠ ""
  | _ => True

/-! ## The backend validator/normalizer, modelled from the spec

The Python backend (the FastAPI service holding the validator/normalizer of
spec §4.1) is not among the sources; the definitions below are modelled from
the specification's §3, §4.1 and §7, using the spec's lower-case field names. -/

/-- Modelled from the spec: the validation-failure taxonomy of §4.1/§7 that
the missing backend validator reports (`MalformedResponse`, `MissingField`,
`InvalidEnum`; `InputTooShort` and `UpstreamUnavailable` arise outside the
validator). -/
inductive ValidationError where
  | MalformedResponse
  | MissingField (field : String)
  | InvalidEnum (got : String)

/-- Modelled from the spec: the `IncidentRecord` domain entity of §3, with the
spec's lower-case field names (`impact_count` is an `Int` whose non-negativity
is the validator's guarantee, not the type's). -/
structure IncidentRecord where
  severity : Severity
  component : String
  timestamp : String
  suspected_cause : String
  impact_count : Int

/-- A scalar rendering of a JSON value, used for `InvalidEnum` reports. -/
def jsonScalarString : Json → String
  | .str s => s
  | .num n => toString n
  | .bool b => toString b
  | .null => "null"
  | .arr _ => "<array>"
  | .obj _ => "<object>"

/-- ASCII lowercasing of a character, for the validator's case-insensitive
comparisons. -/
def lowerChar (c : Char) : Char :=
  if c.toNat ≥ 65 && c.toNat ≤ 90 then Char.ofNat (c.toNat + 32) else c

/-- ASCII lowercasing of a string (the severity vocabulary is ASCII). -/
def lowerAscii (s : String) : String :=
  ⟨s.data.map lowerChar⟩

/-- Modelled from the spec: severity normalization of §4.1 — case-insensitive
match against High/Med/Low, with the synonyms "Critical"/"P1" mapped to High
and "Minor" to Low; anything else is unrecognized. -/
def normalizeSeverity (s : String) : Option Severity :=
  let t := lowerAscii s
  if t = "high" then some .High
  else if t = "med" then some .Med
  else if t = "low" then some .Low
  else if t = "critical" || t = "p1" then some .High
  else if t = "minor" then some .Low
  else none

/-- The number denoted by a list of decimal digits. -/
def digitsToNat (l : List Char) : Nat :=
  l.foldl (fun acc c => acc * 10 + (c.toNat - Char.toNat '0')) 0

/-- Modelled from the spec: "extract the first integer substring" of §4.1 —
the first maximal run of decimal digits in the text, `none` when the text has
no digits. -/
def extractFirstNat (s : String) : Option Nat :=
  let digits := (s.data.dropWhile (fun c => !c.isDigit)).takeWhile Char.isDigit
  if digits.isEmpty then none else some (digitsToNat digits)

/-- Modelled from the spec: impact-count normalization of §4.1 — an integer is
accepted as-is with negatives clamped to 0 (the spec's "clamp to 0" policy
choice), a string yields its first integer substring or 0 when it has no
digits, and any other shape takes the safe fallback 0. -/
def normalizeImpact : Option Json → Int
  | some (.num n) => if n < 0 then 0 else n
  | some (.str s) => ((extractFirstNat s).getD 0 : Nat)
  | _ => 0

/-- Modelled from the spec: an ISO-8601 date-time recognizer for §4.1's
"already a valid ISO-8601 date-time" check, reduced to the
`YYYY-MM-DDTHH:MM:SS` shape (the spec names no grammar; the conversion of
other recognizable date formats is likewise beyond its words and folded into
the current-time fallback). -/
def isIso8601 (s : String) : Bool :=
  match s.data with
  | y1 :: y2 :: y3 :: y4 :: '-' :: mo1 :: mo2 :: '-' :: d1 :: d2 :: 'T' ::
    h1 :: h2 :: ':' :: mi1 :: mi2 :: ':' :: s1 :: s2 :: _ =>
    [y1, y2, y3, y4, mo1, mo2, d1, d2, h1, h2, mi1, mi2, s1, s2].all Char.isDigit
  | _ => false

/-- Modelled from the spec: timestamp normalization of §4.1 — an ISO-8601
string is kept, anything unparsable (or missing, or non-string) falls back to
`now`, the ISO-8601 rendering of the current time at validation. -/
def normalizeTimestamp (now : String) : Option Json → String
  | some (.str s) => if isIso8601 s then s else now
  | _ => now

/-- Modelled from the spec: suspected-cause normalization — a non-empty string
is kept; a missing, empty or non-string value takes the documented fallback
"Unknown" (§4.1's field-presence fallback list). -/
def normalizeCause : Option Json → String
  | some (.str s) => if s = "" then "Unknown" else s
  | _ => "Unknown"

/-- Modelled from the spec: the severity field has no safe fallback — missing
fails with `MissingField`, an unrecognized or non-string value with
`InvalidEnum` (§4.1). -/
def getSeverityField (raw : Json) : Except ValidationError Severity :=
  match getField raw "severity" with
  | none => .error (.MissingField "severity")
  | some (.str s) =>
    match normalizeSeverity s with
    | some sev => .ok sev
    | none => .error (.InvalidEnum s)
  | some v => .error (.InvalidEnum (jsonScalarString v))

/-- Modelled from the spec: the component field has no safe fallback — a
missing, empty or non-string component fails with `MissingField` (§4.1's
"non-empty text" requirement of §3). -/
def getComponentField (raw : Json) : Except ValidationError String :=
  match getField raw "component" with
  | some (.str s) => if s = "" then .error (.MissingField "component") else .ok s
  | _ => .error (.MissingField "component")

/-- Modelled from the spec: the validator/normalizer contract of §4.1,
`validate(raw) -> Result<IncidentRecord, ValidationError>`, a pure function
of the raw decoded payload and the current time `now` (the ISO-8601 rendering
used for the timestamp fallback). A non-object payload (decode failure,
`null`) is `MalformedResponse`; severity and component must validate;
timestamp, suspected_cause and impact_count take their safe fallbacks. -/
def validate (now : String) (raw : Json) : Except ValidationError IncidentRecord :=
  match raw with
  | .obj _ =>
    match getSeverityField raw, getComponentField raw with
    | .ok sev, .ok comp =>
      .ok { severity := sev
            component := comp
            timestamp := normalizeTimestamp now (getField raw "timestamp")
            suspected_cause := normalizeCause (getField raw "suspected_cause")
            impact_count := normalizeImpact (getField raw "impact_count") }
    | .error e, _ => .error e
    | .ok _, .error e => .error e
  | _ => .error .MalformedResponse

/-- The provider response of the spec's §8 normalization scenario. -/
def scenarioResponse : Json :=
  .obj [("severity", .str "critical"),
        ("component", .str "DB"),
        ("timestamp", .str "not-a-date"),
        ("suspected_cause", .str "migration"),
        ("impact_count", .str "about 500 users")]

/-- A concrete `ParsedIncident` value, for instantiating the theorems. -/
def sampleRecord : ParsedIncident :=
  { Severity := .High
    Component := "DB"
    Timestamp := "2025-01-01T00:00:00"
    Suspected_Cause := "migration"
    Impact_Count := 500 }

/-- A concrete stand-in for `parseIncident`'s resolved response, for
instantiating the `handleParse` theorems. -/
def sampleApi : String → ParseIncidentResponse :=
  fun _ => { success := true, data := some sampleRecord, error := none }

/-! ## Helper lemmas -/

/-- Dropping a prefix never lengthens a list. -/
theorem length_dropWhile_le_self (p : Char → Bool) (l : List Char) :
    (l.dropWhile p).length ≤ l.length := by
  induction l with
  | nil => simp [List.dropWhile]
  | cons a l ih =>
    simp only [List.dropWhile]
    split
    · exact Nat.le_succ_of_le ih
    · exact Nat.le_refl _

/-- Trimming never lengthens a string. -/
theorem jsTrim_length_le (s : String) : (jsTrim s).length ≤ s.length := by
  show (jsTrimList s.data).length ≤ s.data.length
  unfold jsTrimList
  rw [List.length_reverse]
  calc ((s.data.dropWhile isJsWhitespace).reverse.dropWhile isJsWhitespace).length
      ≤ (s.data.dropWhile isJsWhitespace).reverse.length :=
        length_dropWhile_le_self _ _
    _ = (s.data.dropWhile isJsWhitespace).length := List.length_reverse _
    _ ≤ s.data.length := length_dropWhile_le_self _ _

/-- A trim shorter than 10 characters makes `handleParse` take the rejection
branch verbatim. -/
theorem handleParse_trim_short (api : String → ParseIncidentResponse)
    (text : String) (h : (jsTrim text).length < 10) :
    handleParse api text =
      { result := { success := false, data := none, error := some tooShortMessage },
        apiCalled := false } := by
  unfold handleParse
  have hcond : (decide (jsTrim text = "") || decide ((jsTrim text).length < 10)) = true := by
    simp [h]
  simp only [hcond, if_true]

/-- `normalizeImpact` never produces a negative count. -/
theorem normalizeImpact_nonneg (o : Option Json) : 0 ≤ normalizeImpact o := by
  unfold normalizeImpact
  rcases o with _ | j
  · exact le_refl 0
  · cases j with
    | num n =>
      by_cases hn : n < 0
      · simp [hn]
      · simp [hn]; omega
    | str s => simp
    | null => exact le_refl 0
    | bool b => exact le_refl 0
    | arr es => exact le_refl 0
    | obj fs => exact le_refl 0

/-- The failure objects `parseIncident` builds with a string message always
have the `ParseIncidentResponse` shape. -/
theorem mkFailure_str_shape (s : String) :
    isParseIncidentResponseJson (mkFailure (.str s)) = true := rfl

/-- The `success` field of a constructed failure object. -/
theorem mkFailure_success_field (e : Json) :
    getField (mkFailure e) "success" = some (.bool false) := rfl

/-- The `error` field of a constructed failure object. -/
theorem mkFailure_error_field (e : Json) :
    getField (mkFailure e) "error" = some e := rfl

/-- A non-empty string `detail` in the error body is forwarded as the error
message (a body carrying a `detail` key is necessarily an object, so the
`null` arm cannot apply). -/
theorem httpFailure_detail (status : Nat) (j : Json) (s : String)
    (hd : getField j "detail" = some (.str s)) (hs : s ≠ "") :
    httpFailure status (some j) = mkFailure (.str s) := by
  cases j with
  | obj fields =>
    simp only [httpFailure, Option.getD]
    rw [hd]
    simp [jsTruthy, hs]
  | null => exact absurd hd (by simp [getField])
  | bool b => exact absurd hd (by simp [getField])
  | num n => exact absurd hd (by simp [getField])
  | str t => exact absurd hd (by simp [getField])
  | arr es => exact absurd hd (by simp [getField])

/-- An undecodable error body leaves `errorData` empty, so the fallback
message is used. -/
theorem httpFailure_noBody (status : Nat) :
    httpFailure status none = mkFailure (.str (httpErrorMessage status)) := rfl

/-- A non-`null` error body without `detail` falls back to the HTTP status
message (`detail` reads as `undefined` on objects missing the key and on
boxed primitives and arrays). -/
theorem httpFailure_noDetail (status : Nat) (j : Json) (hnull : j ≠ .null)
    (hd : getField j "detail" = none) :
    httpFailure status (some j) = mkFailure (.str (httpErrorMessage status)) := by
  cases j with
  | obj fields =>
    simp only [httpFailure, Option.getD]
    rw [hd]
  | null => exact absurd rfl hnull
  | bool b => rfl
  | num n => rfl
  | str t => rfl
  | arr es => rfl

/-- A falsy `detail` (here: the empty string) also falls back. -/
theorem httpFailure_falsyDetail (status : Nat) (j : Json) (d : Json)
    (hd : getField j "detail" = some d) (ht : jsTruthy d = false) :
    httpFailure status (some j) = mkFailure (.str (httpErrorMessage status)) := by
  cases j with
  | obj fields =>
    simp only [httpFailure, Option.getD]
    rw [hd]
    simp [ht]
  | null => exact absurd hd (by simp [getField])
  | bool b => exact absurd hd (by simp [getField])
  | num n => exact absurd hd (by simp [getField])
  | str t => exact absurd hd (by simp [getField])
  | arr es => exact absurd hd (by simp [getField])

/-- A non-2xx body decoding to literal `null` yields the `TypeError` message
from the `catch` arm, not the HTTP fallback. -/
theorem httpFailure_nullBody (status : Nat) :
    httpFailure status (some .null) = mkFailure (.str nullDetailErrorMessage) := rfl

/-- The HTTP fallback message is never empty. -/
theorem httpErrorMessage_ne_empty (status : Nat) : httpErrorMessage status ≠ "" := by
  intro h
  have hdata : ("HTTP error! status: ").data ++ (toString status).data = ([] : List Char) :=
    congrArg String.data h
  rcases List.append_eq_nil.mp hdata with ⟨h1, _⟩
  exact absurd (congrArg List.length h1) (by decide)

/-! ## Claim theorems -/

/-- Claim C1: for every input text shorter than 10 characters, `handleParse`
yields a result with `success: false` and the user-facing rejection message,
and never calls `parseIncident` (so no network request to the parse endpoint
is made) for that input. -/
theorem handleParse_rejects_short_input (api : String → ParseIncidentResponse)
    (text : String) (h : text.length < 10) :
    (handleParse api text).result.success = false ∧
    (handleParse api text).result.error = some tooShortMessage ∧
    (handleParse api text).apiCalled = false := by
  have hshort : (jsTrim text).length < 10 :=
    Nat.lt_of_le_of_lt (jsTrim_length_le text) h
  rw [handleParse_trim_short api text hshort]
  exact ⟨rfl, rfl, rfl⟩

/-- Witness for C1 at the 5-character input "short". -/
theorem handleParse_rejects_short_input_witness :
    (handleParse sampleApi "short").result.success = false ∧
    (handleParse sampleApi "short").result.error = some tooShortMessage ∧
    (handleParse sampleApi "short").apiCalled = false :=
  handleParse_rejects_short_input sampleApi "short" (by decide)

/-- Claim C9: the 10-character minimum is checked on the trimmed input — for
every string whose trim is empty or shorter than 10 characters, even when the
raw string has 10 or more characters, `handleParse` rejects it client-side
with `success: false` and issues no request. -/
theorem handleParse_rejects_short_trimmed_input
    (api : String → ParseIncidentResponse) (text : String)
    (h : jsTrim text = "" ∨ (jsTrim text).length < 10) :
    (handleParse api text).result.success = false ∧
    (handleParse api text).result.error = some tooShortMessage ∧
    (handleParse api text).apiCalled = false := by
  have hshort : (jsTrim text).length < 10 := by
    rcases h with h | h
    · rw [h]; decide
    · exact h
  rw [handleParse_trim_short api text hshort]
  exact ⟨rfl, rfl, rfl⟩

/-- Witness for C9 at a raw input of 10 characters (8 spaces and "ab") whose
trim "ab" has only 2. -/
theorem handleParse_rejects_short_trimmed_input_witness :
    ("        ab".length = 10) ∧
    (handleParse sampleApi "        ab").result.success = false ∧
    (handleParse sampleApi "        ab").result.error = some tooShortMessage ∧
    (handleParse sampleApi "        ab").apiCalled = false :=
  ⟨by decide,
   handleParse_rejects_short_trimmed_input sampleApi "        ab" (Or.inr (by decide))⟩

/-- Claim C10: `getSeverityColor` is total — every input string yields one of
the four styling class strings, and any input outside High/Med/Low yields the
gray default. -/
theorem getSeverityColor_total_default (s : String) :
    (getSeverityColor s = "bg-red-500/20 text-red-400 border-red-500/50" ∨
     getSeverityColor s = "bg-yellow-500/20 text-yellow-400 border-yellow-500/50" ∨
     getSeverityColor s = "bg-green-500/20 text-green-400 border-green-500/50" ∨
     getSeverityColor s = "bg-gray-500/20 text-gray-400 border-gray-500/50") ∧
    (s ≠ "High" → s ≠ "Med" → s ≠ "Low" →
     getSeverityColor s = "bg-gray-500/20 text-gray-400 border-gray-500/50") := by
  unfold getSeverityColor
  by_cases h1 : s = "High"
  · simp [h1]
  · by_cases h2 : s = "Med"
    · simp [h1, h2]
    · by_cases h3 : s = "Low"
      · simp [h1, h2, h3]
      · simp [h1, h2, h3]

/-- Witness for C10 at the out-of-vocabulary severity "critical". -/
theorem getSeverityColor_total_default_witness :
    getSeverityColor "critical" = "bg-gray-500/20 text-gray-400 border-gray-500/50" :=
  (getSeverityColor_total_default "critical").2 (by decide) (by decide) (by decide)

/-- Claim C2: every `ParsedIncident` value carries a severity in
High/Med/Low (the union type admits nothing else), and every record the
validator accepts as a successful result has a non-negative `impact_count`. -/
theorem incident_record_invariants :
    (∀ r : ParsedIncident,
      r.Severity = .High ∨ r.Severity = .Med ∨ r.Severity = .Low) ∧
    (∀ (now : String) (raw : Json) (rec : IncidentRecord),
      validate now raw = .ok rec → 0 ≤ rec.impact_count) := by
  constructor
  · intro r
    cases h : r.Severity
    · exact Or.inl rfl
    · exact Or.inr (Or.inl rfl)
    · exact Or.inr (Or.inr rfl)
  · intro now raw rec h
    cases raw with
    | obj fields =>
      simp only [validate] at h
      split at h
      · rcases Except.ok.inj h with rfl
        exact normalizeImpact_nonneg _
      · exact absurd h (by simp)
      · exact absurd h (by simp)
    | null => exact absurd h (by simp [validate])
    | bool b => exact absurd h (by simp [validate])
    | num n => exact absurd h (by simp [validate])
    | str s => exact absurd h (by simp [validate])
    | arr es => exact absurd h (by simp [validate])

/-- Witness for C2: the severity disjunction at `sampleRecord`, and the
impact bound at the record the validator accepts for the spec's §8 scenario
response. -/
theorem incident_record_invariants_witness :
    (sampleRecord.Severity = .High ∨ sampleRecord.Severity = .Med ∨
     sampleRecord.Severity = .Low) ∧
    0 ≤ (IncidentRecord.mk .High "DB" "2025-01-01T00:00:00" "migration" 500).impact_count :=
  ⟨incident_record_invariants.1 sampleRecord,
   incident_record_invariants.2 "2025-01-01T00:00:00" scenarioResponse _ rfl⟩

/-- Claim C7: on the provider response with severity "critical", component
"DB", timestamp "not-a-date", suspected_cause "migration" and impact_count
"about 500 users", the validator succeeds with severity High, the
current-time fallback timestamp, and impact_count 500. -/
theorem validate_scenario (now : String) :
    validate now scenarioResponse =
      .ok { severity := .High, component := "DB", timestamp := now,
            suspected_cause := "migration", impact_count := 500 } := rfl

/-- Claim C5 counterexample: serializing a successful record puts no field
under the lower-case name "severity"; the field is under "Severity" (and
likewise for the other four capitalized names declared in
`frontend/types/incident.ts`), so the claimed lower-case wire names are not
the program's. -/
theorem stringify_no_lowercase_names :
    getField (ParsedIncident.stringifyObj sampleRecord) "severity" = none ∧
    getField (ParsedIncident.stringifyObj sampleRecord) "Severity" =
      some (.str "High") :=
  ⟨rfl, rfl⟩

/-- Claim C5 (amended): in every successfully returned record, the five
required fields appear under exactly the names Severity, Component,
Timestamp, Suspected_Cause and Impact_Count (case-sensitive on the wire),
matching the data model's declared field names. -/
theorem stringify_field_names (r : ParsedIncident) :
    jsonKeys (ParsedIncident.stringifyObj r) =
      ["Severity", "Component", "Timestamp", "Suspected_Cause", "Impact_Count"] := rfl

/-- Claim C6: the component's result section shows the fully-populated view
exactly when the held response has `success` true and `data` present (and
then it shows that record's five fields), and otherwise a single
human-readable error string. -/
theorem render_full_or_error (resp : ParseIncidentResponse) :
    (∀ d, resp.success = true → resp.data = some d →
      renderResult (some resp) = .fullResult d) ∧
    (∀ d, renderResult (some resp) = .fullResult d →
      resp.success = true ∧ resp.data = some d) ∧
    (resp.success = false ∨ resp.data = none →
      renderResult (some resp) = .errorView (jsStringOr resp.error defaultErrorMessage)) := by
  obtain ⟨succ, data, err⟩ := resp
  cases succ <;> rcases data with _ | d <;>
    simp [renderResult]

/-- Witness for C6: a successful response renders the full view of its
record; a failed response renders the error view. -/
theorem render_full_or_error_witness :
    renderResult (some { success := true, data := some sampleRecord, error := none }) =
      .fullResult sampleRecord ∧
    renderResult (some { success := false, data := none, error := some "boom" }) =
      .errorView (jsStringOr (some "boom") defaultErrorMessage) :=
  ⟨(render_full_or_error _).1 sampleRecord rfl rfl,
   (render_full_or_error _).2.2 (Or.inl rfl)⟩

/-- Claim C3 counterexample: a 2xx response whose body is the JSON object
`\x7b\x7d` is returned by `parseIncident` as-is, with no `success` field at all —
the claimed response shape does not hold of every returned value, because the
2xx body is forwarded unvalidated. -/
theorem parseIncident_forwards_unvalidated_body :
    isParseIncidentResponseJson
      (parseIncident (.response true 200 (some (.obj [])))) = false := rfl

/-- Claim C3 (amended): provided every decoded 2xx body is a well-formed
`ParseIncidentResponse` (the backend's specified guarantee — `parseIncident`
forwards it unchecked) and any truthy non-2xx `detail` is a string, every
value `parseIncident` returns has the response shape: `success` present and
boolean, `data` only on success and then a complete record, `error` a string
on failure. -/
theorem parseIncident_response_shape (r : FetchResult)
    (hok : okBodyWellFormed r) (hdet : truthyDetailIsString r) :
    isParseIncidentResponseJson (parseIncident r) = true := by
  cases r with
  | thrown m =>
    rcases m with _ | m
    · exact mkFailure_str_shape connectionErrorMessage
    · exact mkFailure_str_shape m
  | response ok status body =>
    cases ok with
    | true =>
      rcases body with _ | j
      · exact mkFailure_str_shape jsonDecodeErrorMessage
      · exact hok
    | false =>
      rcases body with _ | j
      · rw [show parseIncident (.response false status none) = httpFailure status none
              from rfl, httpFailure_noBody]
        exact mkFailure_str_shape _
      · by_cases hnull : j = .null
        · subst hnull
          rw [show parseIncident (.response false status (some .null)) =
                httpFailure status (some .null) from rfl,
              httpFailure_nullBody]
          exact mkFailure_str_shape _
        · rcases hd : getField j "detail" with _ | d
          · rw [show parseIncident (.response false status (some j)) =
                  httpFailure status (some j) from rfl,
                httpFailure_noDetail status j hnull hd]
            exact mkFailure_str_shape _
          · rcases ht : jsTruthy d with _ | _
            · rw [show parseIncident (.response false status (some j)) =
                    httpFailure status (some j) from rfl,
                  httpFailure_falsyDetail status j d hd ht]
              exact mkFailure_str_shape _
            · obtain ⟨s, rfl⟩ := hdet d hd ht
              have hs : s ≠ "" := by simpa [jsTruthy] using ht
              rw [show parseIncident (.response false status (some j)) =
                    httpFailure status (some j) from rfl,
                  httpFailure_detail status j s hd hs]
              exact mkFailure_str_shape s

/-- Witness for the amended C3 at a non-2xx response carrying a string
`detail`. -/
theorem parseIncident_response_shape_witness :
    isParseIncidentResponseJson
      (parseIncident (.response false 500 (some (.obj [("detail", .str "boom")])))) = true :=
  parseIncident_response_shape (.response false 500 (some (.obj [("detail", .str "boom")])))
    trivial
    (fun _ hd _ => ⟨"boom", (Option.some.inj hd).symm⟩)

/-- Claim C4 counterexample: when the promise chain throws an `Error` whose
own message is empty, `parseIncident` forwards the empty message — the
returned failure's `error` is `""`, not a non-empty message as claimed. -/
theorem parseIncident_forwards_empty_message :
    getField (parseIncident (.thrown (some ""))) "error" = some (.str "") := rfl

/-- Claim C4 (amended): `parseIncident` is total — every fetch outcome maps
to a returned value, never a rejection — and on every failure path (thrown
error, non-2xx response, undecodable 2xx body) the result carries
`success: false` and an `error` field; the message is non-empty provided a
thrown `Error`'s message is non-empty and any truthy non-2xx `detail` is a
string, both being forwarded verbatim by the code. -/
theorem parseIncident_failure_uniform (r : FetchResult)
    (hfail : isFailurePath r = true)
    (hmsg : thrownMessageNonEmpty r) (hdet : truthyDetailIsString r) :
    getField (parseIncident r) "success" = some (.bool false) ∧
    ∃ s, s ≠ "" ∧ getField (parseIncident r) "error" = some (.str s) := by
  cases r with
  | thrown m =>
    rcases m with _ | m
    · exact ⟨rfl, connectionErrorMessage, by decide, rfl⟩
    · exact ⟨rfl, m, hmsg, rfl⟩
  | response ok status body =>
    cases ok with
    | true =>
      rcases body with _ | j
      · exact ⟨rfl, jsonDecodeErrorMessage, by decide, rfl⟩
      · exact absurd hfail (by simp [isFailurePath])
    | false =>
      have hpi : parseIncident (.response false status body) = httpFailure status body := rfl
      rcases body with _ | j
      · rw [hpi, httpFailure_noBody]
        exact ⟨rfl, httpErrorMessage status, httpErrorMessage_ne_empty status, rfl⟩
      · by_cases hnull : j = .null
        · subst hnull
          rw [hpi, httpFailure_nullBody]
          exact ⟨rfl, nullDetailErrorMessage, by decide, rfl⟩
        · rcases hd : getField j "detail" with _ | d
          · rw [hpi, httpFailure_noDetail status j hnull hd]
            exact ⟨rfl, httpErrorMessage status, httpErrorMessage_ne_empty status, rfl⟩
          · rcases ht : jsTruthy d with _ | _
            · rw [hpi, httpFailure_falsyDetail status j d hd ht]
              exact ⟨rfl, httpErrorMessage status, httpErrorMessage_ne_empty status, rfl⟩
            · obtain ⟨s, rfl⟩ := hdet d hd ht
              have hs : s ≠ "" := by simpa [jsTruthy] using ht
              rw [hpi, httpFailure_detail status j s hd hs]
              exact ⟨rfl, s, hs, rfl⟩

/-- Witness for the amended C4 at a network error thrown without an `Error`
instance: the connection fallback message is used. -/
theorem parseIncident_failure_uniform_witness :
    getField (parseIncident (.thrown none)) "success" = some (.bool false) ∧
    ∃ s, s ≠ "" ∧ getField (parseIncident (.thrown none)) "error" = some (.str s) :=
  parseIncident_failure_uniform (.thrown none) rfl trivial trivial

/-- Claim C8 counterexample: a non-2xx body of literal `null` is valid JSON
without a `detail` field, so the claim asserts the "HTTP error! status: 404"
fallback there — but reading `errorData.detail` on `null` throws a
`TypeError` inside the `try`, and the `catch` arm returns that error's
message, which differs from the claimed fallback. -/
theorem parseIncident_nullbody_typeerror :
    parseIncident (.response false 404 (some .null)) =
      mkFailure (.str nullDetailErrorMessage) ∧
    nullDetailErrorMessage ≠ httpErrorMessage 404 :=
  ⟨rfl, by decide⟩

/-- Claim C8 (amended): for a non-2xx response, the error message is the
body's non-empty string `detail` when the body decodes as JSON and carries
one; when the body is not valid JSON, or decodes to anything other than
literal `null` without a `detail` field, the fallback
"HTTP error! status: [status]" is returned instead of throwing; a body of
literal `null` instead yields the message of the `TypeError` raised by the
`errorData.detail` read, forwarded by the `catch` arm. -/
theorem parseIncident_detail_or_fallback :
    (∀ (status : Nat) (j : Json) (s : String),
      getField j "detail" = some (.str s) → s ≠ "" →
      parseIncident (.response false status (some j)) = mkFailure (.str s)) ∧
    (∀ status : Nat,
      parseIncident (.response false status none) =
        mkFailure (.str (httpErrorMessage status))) ∧
    (∀ (status : Nat) (j : Json),
      j ≠ .null → getField j "detail" = none →
      parseIncident (.response false status (some j)) =
        mkFailure (.str (httpErrorMessage status))) ∧
    (∀ status : Nat,
      parseIncident (.response false status (some .null)) =
        mkFailure (.str nullDetailErrorMessage)) := by
  refine ⟨fun status j s hd hs => ?_, fun status => ?_,
          fun status j hnull hd => ?_, fun status => ?_⟩
  · exact httpFailure_detail status j s hd hs
  · exact httpFailure_noBody status
  · exact httpFailure_noDetail status j hnull hd
  · exact httpFailure_nullBody status

/-- Witness for the amended C8: a 500 with `detail` "upstream unavailable"
yields that message; a 404 with an undecodable body and a 502 with a
detail-less object body yield the status fallback; a 503 with a `null` body
yields the `TypeError` message. -/
theorem parseIncident_detail_or_fallback_witness :
    parseIncident (.response false 500 (some (.obj [("detail", .str "upstream unavailable")]))) =
      mkFailure (.str "upstream unavailable") ∧
    parseIncident (.response false 404 none) =
      mkFailure (.str (httpErrorMessage 404)) ∧
    parseIncident (.response false 502 (some (.obj [("message", .str "bad gateway")]))) =
      mkFailure (.str (httpErrorMessage 502)) ∧
    parseIncident (.response false 503 (some .null)) =
      mkFailure (.str nullDetailErrorMessage) :=
  ⟨parseIncident_detail_or_fallback.1 500 (.obj [("detail", .str "upstream unavailable")])
     "upstream unavailable" rfl (by decide),
   parseIncident_detail_or_fallback.2.1 404,
   parseIncident_detail_or_fallback.2.2.1 502 (.obj [("message", .str "bad gateway")])
     (by simp) rfl,
   parseIncident_detail_or_fallback.2.2.2 503⟩

end IncidentSpec
